import Mathlib

/-!
Verification of `scripts/mcu_build_and_copy.py`

A shallow embedding of the MCU firmware build-and-copy orchestrator.

Modelling conventions:
* An absolute POSIX path is a `List String` of its segments below the
  filesystem root, so `/a/b` is `["a", "b"]` and the root itself is `[]`.
  `os.path.join(p, name)` is `p ++ [name]`; the Python upward loop over
  `parts[:i]` (where `parts` includes the leading empty segment) is the loop
  over `start.take k` for `k = start.length` down to `0`.
* The filesystem and environment are a structure `FS` of read functions:
  `isDir` models `os.path.isdir`, `pathExists` models `os.path.exists`,
  `getmtime` models `os.path.getmtime` with `none` for a raised `OSError`,
  `listdir` models `os.listdir` with `none` for a raised `PermissionError`.
  Write operations are modelled by success predicates (`makedirsOk`,
  `copy2Ok`, `chdirOk`) plus an effect trace recording what was performed.
  `time.time()` is the constant `now`; timestamps are integers (the script
  only compares `now - mtime` against an integral timeout).
* The external build tool is modelled by `makeAvailable` (the binary is on
  PATH; `false` corresponds to `FileNotFoundError` from `subprocess.run`)
  and `makeRc` (its termination status when it runs).
* A run's visible behaviour is a `PyOutcome` (a process exit code, or an
  uncaught Python exception for the unhandled `OSError` sites) together
  with the list of side effects performed, in order.  Messages printed to
  stderr are not modelled; the informative stdout reports of dry-run mode
  are modelled as effects carrying the reported paths.
-/

abbrev FsPath := List String

/-- Constant `BUILD_AXON_FOLDER = 'build-axon'`. -/
def BUILD_AXON_FOLDER : String := "build-axon"

/-- Constant `LINUX_YP_PATH = 'linux_yp4.0_cgw_1.x.x_dev'`. -/
def LINUX_YP_PATH : String := "linux_yp4.0_cgw_1.x.x_dev"

/-- Constant `BOOT_FIRMWARE_FOLDER_DST = 'boot-firmware_tcn1000'`. -/
def BOOT_FIRMWARE_FOLDER_DST : String := "boot-firmware_tcn1000"

/-- Constant `MCU_BUILD_SUFFIX` (the fixed relative path joined by `os.path.join`). -/
def MCU_BUILD_SUFFIX : FsPath :=
  [LINUX_YP_PATH, "build", "tcn1000-mcu", "tmp", "work",
   "cortexm7-telechips-linux-musleabi", "m7-1", "1.0.0-r0", "git"]

/-- Constant `ROM_NAME = 'tcn100x_snor.rom'`. -/
def ROM_NAME : String := "tcn100x_snor.rom"

/-- The filesystem / environment a run observes (read-only view plus
success predicates for the write operations; see the module docstring). -/
structure FS where
  isDir : FsPath → Bool
  pathExists : FsPath → Bool
  getmtime : FsPath → Option Int
  listdir : FsPath → Option (List String)
  makedirsOk : FsPath → Bool
  copy2Ok : FsPath → FsPath → Bool
  chdirOk : FsPath → Bool
  makeAvailable : Bool
  makeRc : Int
  now : Int

/-- Side effects a run performs, in order. -/
inductive Effect where
  | chdir (p : FsPath)
  | runMake
  | makedirs (p : FsPath)
  | copy2 (src dst : FsPath)
  | printDryRun (buildAxon mcuBuild destDir : FsPath)
  | printWouldCopy (src dst : FsPath)
deriving DecidableEq

/-- Which unhandled exception site crashed the run. -/
inductive CrashReason where
  | makedirsFailed (p : FsPath)
  | getmtimeFailed (p : FsPath)
deriving DecidableEq

/-- How a run terminates: a process exit code, or an uncaught exception
(a crash that does not go through the exit-code taxonomy). -/
inductive PyOutcome where
  | exit (code : Int)
  | uncaught (r : CrashReason)
deriving DecidableEq

/-- The upward phase of `find_build_axon`: for `i` in
`range(len(parts), 0, -1)` test `os.path.join(os.sep.join(parts[:i]),
BUILD_AXON_FOLDER)`.  In segment terms the candidate prefixes are
`start.take k` for `k` from `start.length` down to `0`. -/
def upwardSearchAux (fs : FS) (start : FsPath) : Nat → Option FsPath
  | 0 =>
      let c := start.take 0 ++ [BUILD_AXON_FOLDER]
      if fs.isDir c then some c else none
  | k + 1 =>
      let c := start.take (k + 1) ++ [BUILD_AXON_FOLDER]
      if fs.isDir c then some c else upwardSearchAux fs start k

/-- The whole upward phase, starting from the deepest prefix (the start
path itself). -/
def upwardSearch (fs : FS) (start : FsPath) : Option FsPath :=
  upwardSearchAux fs start start.length

/-- The inner `for d2_name in os.listdir(p1)` loop of the downward phase. -/
def depth2Scan (fs : FS) (p1 : FsPath) : List String → Option FsPath
  | [] => none
  | d2 :: rest =>
      let p2 := p1 ++ [d2]
      if fs.isDir p2 then
        if fs.isDir (p2 ++ [BUILD_AXON_FOLDER]) then
          some (p2 ++ [BUILD_AXON_FOLDER])
        else depth2Scan fs p1 rest
      else depth2Scan fs p1 rest

/-- The outer `for d1_name in os.listdir(abs_start_path)` loop of the
downward phase.  A `PermissionError` from listing `p1` (modelled as
`listdir p1 = none`) hits the inner `except PermissionError: continue`. -/
def depth1Scan (fs : FS) (start : FsPath) : List String → Option FsPath
  | [] => none
  | d1 :: rest =>
      let p1 := start ++ [d1]
      if fs.isDir p1 then
        if fs.isDir (p1 ++ [BUILD_AXON_FOLDER]) then
          some (p1 ++ [BUILD_AXON_FOLDER])
        else
          match fs.listdir p1 with
          | none => depth1Scan fs start rest
          | some l2 =>
              match depth2Scan fs p1 l2 with
              | some r => some r
              | none => depth1Scan fs start rest
      else depth1Scan fs start rest

/-- The downward phase of `find_build_axon`: direct child test, then the
depth-1/depth-2 enumeration.  A `PermissionError` from listing `start`
hits the outer `except PermissionError: pass`. -/
def downwardSearch (fs : FS) (start : FsPath) : Option FsPath :=
  if fs.isDir (start ++ [BUILD_AXON_FOLDER]) then
    some (start ++ [BUILD_AXON_FOLDER])
  else
    match fs.listdir start with
    | none => none
    | some l1 => depth1Scan fs start l1

/-- `find_build_axon(start_path)`: upward phase, then downward phase,
`none` for the Python `return None`.  `start` is the already absolute
normalized start path (`os.path.abspath(start_path)`). -/
def find_build_axon (fs : FS) (start : FsPath) : Option FsPath :=
  match upwardSearch fs start with
  | some r => some r
  | none => downwardSearch fs start

/-- Variant of `find_build_axon` without the downward phase's direct test
of `build-axon` under the start path (used to state claim C10). -/
def find_build_axon_noDirect (fs : FS) (start : FsPath) : Option FsPath :=
  match upwardSearch fs start with
  | some r => some r
  | none =>
      match fs.listdir start with
      | none => none
      | some l1 => depth1Scan fs start l1

/-- `run_make()`: invokes the external build tool with no arguments and
returns its termination status; `FileNotFoundError` (the tool binary is
not on PATH) is caught and reported as the specific code 127, and then
the tool never ran. -/
def run_make (fs : FS) : Int × List Effect :=
  if fs.makeAvailable then (fs.makeRc, [Effect.runMake]) else (127, [])

/-- The fixed priority list of accepted boot-firmware directory name
variants (`candidates` in `find_boot_dir`). -/
def BOOT_DIR_CANDIDATES : List String :=
  ["boot-firmware-tcn100x", "boot-firmware_tcn100x"]

/-- The `for cand in candidates` loop of `find_boot_dir`. -/
def findBootDirAux (fs : FS) (target : FsPath) : List String → Option FsPath
  | [] => none
  | cand :: rest =>
      let cand_path := target ++ [cand]
      if fs.isDir cand_path then some cand_path
      else findBootDirAux fs target rest

/-- `find_boot_dir(target)`: first existing candidate directory, else `None`. -/
def find_boot_dir (fs : FS) (target : FsPath) : Option FsPath :=
  findBootDirAux fs target BOOT_DIR_CANDIDATES

/-- The tail of `check_and_copy_rom` from `# Prepare destination` on:
`os.makedirs(dest_dir, exist_ok=True)` (an `OSError` here is NOT caught,
so the run crashes), then the dry-run report or the guarded
`shutil.copy2` (any exception there is caught and mapped to 10). -/
def romStageTail (fs : FS) (build_axon_path rom_path : FsPath)
    (dry_run : Bool) : PyOutcome × List Effect :=
  let dest_dir := build_axon_path ++ [LINUX_YP_PATH, BOOT_FIRMWARE_FOLDER_DST]
  if fs.makedirsOk dest_dir then
    let dest_path := dest_dir ++ [ROM_NAME]
    if dry_run then
      (PyOutcome.exit 0,
       [Effect.makedirs dest_dir, Effect.printWouldCopy rom_path dest_path])
    else if fs.copy2Ok rom_path dest_path then
      (PyOutcome.exit 0,
       [Effect.makedirs dest_dir, Effect.copy2 rom_path dest_path])
    else
      (PyOutcome.exit 10, [Effect.makedirs dest_dir])
  else
    (PyOutcome.uncaught (CrashReason.makedirsFailed dest_dir), [])

/-- `check_and_copy_rom(build_axon_path, mcu_build_path, timeout,
force_copy, dry_run)`: boot directory discovery (7), ROM existence (8),
the freshness check `now - mtime > timeout` (9) unless `force_copy`
(`os.path.getmtime` raising an `OSError` is NOT caught, so the run
crashes), then staging via `romStageTail`. -/
def check_and_copy_rom (fs : FS) (build_axon_path mcu_build_path : FsPath)
    (timeout : Int) (force_copy dry_run : Bool) : PyOutcome × List Effect :=
  match find_boot_dir fs mcu_build_path with
  | none => (PyOutcome.exit 7, [])
  | some boot_dir =>
      let rom_path := boot_dir ++ [ROM_NAME]
      if fs.pathExists rom_path then
        if force_copy then
          romStageTail fs build_axon_path rom_path dry_run
        else
          match fs.getmtime rom_path with
          | none => (PyOutcome.uncaught (CrashReason.getmtimeFailed rom_path), [])
          | some mtime =>
              if fs.now - mtime > timeout then (PyOutcome.exit 9, [])
              else romStageTail fs build_axon_path rom_path dry_run
      else
        (PyOutcome.exit 8, [])

/-- The parsed command line (`parse_args`): positional start path (already
made absolute, in segments), `--dry-run`, `--timeout` (default 60),
`--force-copy`. -/
structure Args where
  path : FsPath
  dry_run : Bool
  timeout : Int
  force_copy : Bool
deriving DecidableEq

/-- `main(argv)` (named `mainRun` because Lean reserves `main`): resolution (4), layout computation, the dry-run report
and `return 0`, MCU build directory existence (5), `os.chdir` (6),
`run_make` with its non-zero status propagated verbatim, then
`check_and_copy_rom`.  Returns the process outcome and the ordered side
effects of the whole run. -/
def mainRun (fs : FS) (args : Args) : PyOutcome × List Effect :=
  match find_build_axon fs args.path with
  | none => (PyOutcome.exit 4, [])
  | some build_axon_path =>
      let mcu_build_path := build_axon_path ++ MCU_BUILD_SUFFIX
      if args.dry_run then
        (PyOutcome.exit 0,
         [Effect.printDryRun build_axon_path mcu_build_path
           (build_axon_path ++ [LINUX_YP_PATH, BOOT_FIRMWARE_FOLDER_DST])])
      else if !fs.isDir mcu_build_path then
        (PyOutcome.exit 5, [])
      else if !fs.chdirOk mcu_build_path then
        (PyOutcome.exit 6, [])
      else
        let mk := run_make fs
        if mk.1 ≠ 0 then
          (PyOutcome.exit mk.1, Effect.chdir mcu_build_path :: mk.2)
        else
          let st := check_and_copy_rom fs build_axon_path mcu_build_path
            args.timeout args.force_copy args.dry_run
          (st.1, Effect.chdir mcu_build_path :: (mk.2 ++ st.2))

/-- A finite concrete filesystem, for evaluating the model on explicit
inputs.  `dirs` is the list of existing directories, `files` the existing
files with mtimes, `denied` the directories whose listing raises
`PermissionError`, `listings` the directory listings, `mkdirFail` the
paths on which `os.makedirs` raises. -/
def mkFs (dirs : List FsPath) (files : List (FsPath × Int))
    (denied : List FsPath) (listings : List (FsPath × List String))
    (mkdirFail : List FsPath) (copyOkB chdirOkB mkAvail : Bool)
    (mkRc nowT : Int) : FS where
  isDir p := dirs.contains p
  pathExists p := dirs.contains p || files.any (fun f => f.1 == p)
  getmtime p := (files.find? (fun f => f.1 == p)).map (fun f => f.2)
  listdir p :=
    if denied.contains p then none
    else some ((((listings.find? (fun l => l.1 == p)).map (fun l => l.2)).getD []))
  makedirsOk p := !mkdirFail.contains p
  copy2Ok _ _ := copyOkB
  chdirOk _ := chdirOkB
  makeAvailable := mkAvail
  makeRc := mkRc
  now := nowT

/-- If an iteration of the upward loop returns nothing, the candidate it
tested first (the deepest prefix in its range) is not a directory. -/
theorem upwardSearchAux_top_isDir {fs : FS} {start : FsPath} {k : Nat}
    (h : upwardSearchAux fs start k = none) :
    fs.isDir (start.take k ++ [BUILD_AXON_FOLDER]) = false := by
  cases k with
  | zero =>
      rw [upwardSearchAux] at h
      by_cases hd : fs.isDir (start.take 0 ++ [BUILD_AXON_FOLDER]) <;>
        simp_all
  | succ k =>
      rw [upwardSearchAux] at h
      by_cases hd : fs.isDir (start.take (k + 1) ++ [BUILD_AXON_FOLDER]) <;>
        simp_all

/-- The upward loop returns the candidate of the deepest prefix index `k`
at which the target directory exists, provided every deeper prefix fails. -/
theorem upwardSearchAux_finds (fs : FS) (start : FsPath) (k m : Nat)
    (hkm : k ≤ m)
    (hdir : fs.isDir (start.take k ++ [BUILD_AXON_FOLDER]) = true)
    (hmax : ∀ j, k < j → j ≤ m →
      fs.isDir (start.take j ++ [BUILD_AXON_FOLDER]) = false) :
    upwardSearchAux fs start m = some (start.take k ++ [BUILD_AXON_FOLDER]) := by
  induction m with
  | zero =>
      have hk0 : k = 0 := Nat.le_zero.mp hkm
      subst hk0
      rw [upwardSearchAux]
      simp only [List.take_zero, List.nil_append] at hdir ⊢
      simp [hdir]
  | succ m ih =>
      rw [upwardSearchAux]
      rcases Nat.eq_or_lt_of_le hkm with heq | hlt
      · subst heq
        simp [hdir]
      · have hfalse := hmax (m + 1) hlt le_rfl
        simp only [hfalse, Bool.false_eq_true, if_false]
        exact ih (Nat.lt_succ_iff.mp hlt)
          (fun j hj hjm => hmax j hj (le_trans hjm (Nat.le_succ m)))

/-- If every prefix up to index `m` fails, the upward loop returns nothing. -/
theorem upwardSearchAux_none (fs : FS) (start : FsPath) (m : Nat)
    (h : ∀ k, k ≤ m → fs.isDir (start.take k ++ [BUILD_AXON_FOLDER]) = false) :
    upwardSearchAux fs start m = none := by
  induction m with
  | zero =>
      rw [upwardSearchAux]
      have h0 := h 0 le_rfl
      simp only [List.take_zero, List.nil_append] at h0 ⊢
      simp [h0]
  | succ m ih =>
      rw [upwardSearchAux]
      simp only [h (m + 1) le_rfl, Bool.false_eq_true, if_false]
      exact ih (fun k hk => h k (le_trans hk (Nat.le_succ m)))

/-- C1: for every start path whose ancestor chain (its prefixes, the
start path itself included, down to the filesystem root) contains at
least one directory with a direct child named `build-axon`,
`find_build_axon` returns that child of the nearest (deepest) such
ancestor, never a more distant one. -/
theorem C1_nearest_ancestor (fs : FS) (start : FsPath) (k : Nat)
    (hk : k ≤ start.length)
    (hdir : fs.isDir (start.take k ++ [BUILD_AXON_FOLDER]) = true)
    (hmax : ∀ j, k < j → j ≤ start.length →
      fs.isDir (start.take j ++ [BUILD_AXON_FOLDER]) = false) :
    find_build_axon fs start = some (start.take k ++ [BUILD_AXON_FOLDER]) := by
  unfold find_build_axon upwardSearch
  rw [upwardSearchAux_finds fs start k start.length hk hdir hmax]

/-- The concrete tree for the C1 witness: `build-axon` exists both under
`/a` (the nearer ancestor of `/a/b`) and under `/` (the more distant one). -/
def c1fs : FS :=
  mkFs [[], ["a"], ["a", "b"], ["build-axon"], ["a", "build-axon"]]
    [] [] [] [] true true true 0 0

/-- Witness for C1 at start path `/a/b`: the nearer ancestor `/a` wins
over the root even though both hold a `build-axon` child. -/
theorem C1_nearest_ancestor_witness :
    find_build_axon c1fs ["a", "b"] =
      some ((["a", "b"] : FsPath).take 1 ++ [BUILD_AXON_FOLDER]) :=
  C1_nearest_ancestor c1fs ["a", "b"] 1 (by decide) (by decide)
    (fun j hj hj2 => by
      simp only [List.length_cons, List.length_nil] at hj2
      have hj' : j = 2 := by omega
      subst hj'
      decide)

/-- C10: dropping the downward phase's direct test of `build-axon` under
the start path never changes the result of `find_build_axon`, because the
first iteration of the upward phase (the prefix of all segments, i.e. the
normalized start path itself) already tested that same candidate. -/
theorem C10_direct_test_redundant (fs : FS) (start : FsPath) :
    find_build_axon fs start = find_build_axon_noDirect fs start := by
  unfold find_build_axon find_build_axon_noDirect downwardSearch upwardSearch
  cases hup : upwardSearchAux fs start start.length with
  | some r => rfl
  | none =>
      have hd : fs.isDir (start ++ [BUILD_AXON_FOLDER]) = false := by
        have h := upwardSearchAux_top_isDir hup
        rwa [List.take_length] at h
      simp [hd]


/-- Prepending one more name to the inner loop's worklist cannot lose a
hit found in the remaining names. -/
theorem depth2Scan_isSome_cons (fs : FS) (p1 : FsPath) (a : String)
    (rest : List String) (h : (depth2Scan fs p1 rest).isSome) :
    (depth2Scan fs p1 (a :: rest)).isSome := by
  rw [depth2Scan]
  split
  · split
    · simp
    · exact h
  · exact h

/-- Prepending one more name to the outer loop's worklist cannot lose a
hit found in the remaining names. -/
theorem depth1Scan_isSome_cons (fs : FS) (start : FsPath) (a : String)
    (rest : List String) (h : (depth1Scan fs start rest).isSome) :
    (depth1Scan fs start (a :: rest)).isSome := by
  rw [depth1Scan]
  split
  · split
    · simp
    · split
      · exact h
      · split
        · simp
        · exact h
  · exact h

/-- If some listed name is a directory holding `build-axon`, the inner
depth-2 loop returns a hit. -/
theorem depth2Scan_isSome (fs : FS) (p1 : FsPath) (names : List String)
    (d2 : String) (hmem : d2 ∈ names)
    (hd : fs.isDir (p1 ++ [d2]) = true)
    (hba : fs.isDir (p1 ++ [d2, BUILD_AXON_FOLDER]) = true) :
    (depth2Scan fs p1 names).isSome := by
  induction names with
  | nil => cases hmem
  | cons a rest ih =>
      rcases List.mem_cons.mp hmem with heq | hmem'
      · subst heq
        rw [depth2Scan]
        simp [hd, hba]
      · exact depth2Scan_isSome_cons fs p1 a rest (ih hmem')

/-- If no listed name holds `build-axon` one level below, the inner
depth-2 loop returns nothing. -/
theorem depth2Scan_none (fs : FS) (p1 : FsPath) (names : List String)
    (h : ∀ d2 ∈ names, fs.isDir (p1 ++ [d2, BUILD_AXON_FOLDER]) = false) :
    depth2Scan fs p1 names = none := by
  induction names with
  | nil => rw [depth2Scan]
  | cons a rest ih =>
      rw [depth2Scan]
      have ha := h a (List.mem_cons_self a rest)
      have hrest := ih (fun d hd => h d (List.mem_cons_of_mem a hd))
      by_cases h1 : fs.isDir (p1 ++ [a]) <;> simp [h1, ha, hrest]

/-- If some listed name is a directory holding `build-axon` directly, the
outer depth-1 loop returns a hit (whatever happened at the names scanned
before it, permission-denied listings included). -/
theorem depth1Scan_isSome_of_depth1 (fs : FS) (start : FsPath)
    (names : List String) (d1 : String) (hmem : d1 ∈ names)
    (hd : fs.isDir (start ++ [d1]) = true)
    (hba : fs.isDir (start ++ [d1, BUILD_AXON_FOLDER]) = true) :
    (depth1Scan fs start names).isSome := by
  induction names with
  | nil => cases hmem
  | cons a rest ih =>
      rcases List.mem_cons.mp hmem with heq | hmem'
      · subst heq
        rw [depth1Scan]
        simp [hd, hba]
      · exact depth1Scan_isSome_cons fs start a rest (ih hmem')

/-- If some listed name is a directory whose own listing contains a
directory holding `build-axon`, the outer depth-1 loop returns a hit. -/
theorem depth1Scan_isSome_of_depth2 (fs : FS) (start : FsPath)
    (names : List String) (d1 : String) (hmem : d1 ∈ names)
    (hd1 : fs.isDir (start ++ [d1]) = true)
    (l2 : List String) (hl2 : fs.listdir (start ++ [d1]) = some l2)
    (d2 : String) (hmem2 : d2 ∈ l2)
    (hd2 : fs.isDir (start ++ [d1, d2]) = true)
    (hba : fs.isDir (start ++ [d1, d2, BUILD_AXON_FOLDER]) = true) :
    (depth1Scan fs start names).isSome := by
  induction names with
  | nil => cases hmem
  | cons a rest ih =>
      rcases List.mem_cons.mp hmem with heq | hmem'
      · subst heq
        rw [depth1Scan]
        by_cases h2 : fs.isDir (start ++ [d1, BUILD_AXON_FOLDER])
        · simp [hd1, h2]
        · have hscan : (depth2Scan fs (start ++ [d1]) l2).isSome := by
            apply depth2Scan_isSome fs (start ++ [d1]) l2 d2 hmem2
            · simpa using hd2
            · simpa using hba
          rw [Option.isSome_iff_exists] at hscan
          obtain ⟨r, hr⟩ := hscan
          simp [hd1, h2, hl2, hr]
      · exact depth1Scan_isSome_cons fs start a rest (ih hmem')

/-- If no listed name has `build-axon` directly under it and none of
their listings has it two levels down, the outer depth-1 loop returns
nothing: the search never looks deeper than that. -/
theorem depth1Scan_none (fs : FS) (start : FsPath) (names : List String)
    (h1 : ∀ d1 ∈ names, fs.isDir (start ++ [d1, BUILD_AXON_FOLDER]) = false)
    (h2 : ∀ d1 ∈ names, ∀ l2, fs.listdir (start ++ [d1]) = some l2 →
      ∀ d2 ∈ l2, fs.isDir (start ++ [d1, d2, BUILD_AXON_FOLDER]) = false) :
    depth1Scan fs start names = none := by
  induction names with
  | nil => rw [depth1Scan]
  | cons a rest ih =>
      rw [depth1Scan]
      have ha := h1 a (List.mem_cons_self a rest)
      have hrest := ih (fun d hd => h1 d (List.mem_cons_of_mem a hd))
        (fun d hd => h2 d (List.mem_cons_of_mem a hd))
      by_cases hdir : fs.isDir (start ++ [a])
      · cases hl : fs.listdir (start ++ [a]) with
        | none => simp [hdir, ha, hl, hrest]
        | some l2 =>
            have hd2 : depth2Scan fs (start ++ [a]) l2 = none := by
              apply depth2Scan_none
              intro d hd
              have := h2 a (List.mem_cons_self a rest) l2 hl d hd
              simpa using this
            simp [hdir, ha, hl, hd2, hrest]
      · simp [hdir, hrest]

/-- If the deepest prefix fails besides all the strictly shorter ones,
the whole upward phase returns nothing. -/
theorem upwardSearch_none (fs : FS) (start : FsPath)
    (hup : ∀ k, k < start.length →
      fs.isDir (start.take k ++ [BUILD_AXON_FOLDER]) = false)
    (h0 : fs.isDir (start ++ [BUILD_AXON_FOLDER]) = false) :
    upwardSearch fs start = none := by
  apply upwardSearchAux_none
  intro k hk
  rcases Nat.eq_or_lt_of_le hk with heq | hlt
  · subst heq
    rwa [List.take_length]
  · exact hup k hlt

/-- C2: when no ancestor prefix strictly above the start path has a
`build-axon` child, the search still finds `build-axon` when it sits as a
child of the start path, of a depth-1 subdirectory, or of a depth-2
subdirectory (directories whose listing raises `PermissionError` are
skipped without aborting the search, which is why only the hit's own
chain is hypothesised); when it is absent from all of those places the
search returns `None` even if it exists deeper. -/
theorem C2_downward_bounded_search (fs : FS) (start : FsPath)
    (hup : ∀ k, k < start.length →
      fs.isDir (start.take k ++ [BUILD_AXON_FOLDER]) = false) :
    (fs.isDir (start ++ [BUILD_AXON_FOLDER]) = true →
      find_build_axon fs start = some (start ++ [BUILD_AXON_FOLDER]))
    ∧
    (∀ l1, fs.listdir start = some l1 → ∀ d1 ∈ l1,
      fs.isDir (start ++ [d1]) = true →
      fs.isDir (start ++ [d1, BUILD_AXON_FOLDER]) = true →
      (find_build_axon fs start).isSome)
    ∧
    (∀ l1, fs.listdir start = some l1 → ∀ d1 ∈ l1,
      fs.isDir (start ++ [d1]) = true →
      ∀ l2, fs.listdir (start ++ [d1]) = some l2 → ∀ d2 ∈ l2,
      fs.isDir (start ++ [d1, d2]) = true →
      fs.isDir (start ++ [d1, d2, BUILD_AXON_FOLDER]) = true →
      (find_build_axon fs start).isSome)
    ∧
    (fs.isDir (start ++ [BUILD_AXON_FOLDER]) = false →
     (∀ l1, fs.listdir start = some l1 → ∀ d1 ∈ l1,
        fs.isDir (start ++ [d1, BUILD_AXON_FOLDER]) = false) →
     (∀ l1, fs.listdir start = some l1 → ∀ d1 ∈ l1,
        ∀ l2, fs.listdir (start ++ [d1]) = some l2 → ∀ d2 ∈ l2,
        fs.isDir (start ++ [d1, d2, BUILD_AXON_FOLDER]) = false) →
     find_build_axon fs start = none) := by
  have hdirect : fs.isDir (start ++ [BUILD_AXON_FOLDER]) = true →
      find_build_axon fs start = some (start ++ [BUILD_AXON_FOLDER]) := by
    intro h
    unfold find_build_axon upwardSearch
    have hfind := upwardSearchAux_finds fs start start.length start.length
      le_rfl (by rwa [List.take_length])
      (fun j hj hj2 => absurd hj (not_lt.mpr hj2))
    rw [hfind, List.take_length]
  refine ⟨hdirect, ?_, ?_, ?_⟩
  · intro l1 hl1 d1 hmem hd hba
    by_cases h0 : fs.isDir (start ++ [BUILD_AXON_FOLDER])
    · rw [hdirect h0]
      simp
    · have hupn := upwardSearch_none fs start hup (by simpa using h0)
      simp only [find_build_axon, hupn, downwardSearch, h0,
        Bool.false_eq_true, if_false, hl1]
      exact depth1Scan_isSome_of_depth1 fs start l1 d1 hmem hd hba
  · intro l1 hl1 d1 hmem hd1 l2 hl2 d2 hmem2 hd2 hba
    by_cases h0 : fs.isDir (start ++ [BUILD_AXON_FOLDER])
    · rw [hdirect h0]
      simp
    · have hupn := upwardSearch_none fs start hup (by simpa using h0)
      simp only [find_build_axon, hupn, downwardSearch, h0,
        Bool.false_eq_true, if_false, hl1]
      exact depth1Scan_isSome_of_depth2 fs start l1 d1 hmem hd1 l2 hl2
        d2 hmem2 hd2 hba
  · intro h0 h1 h2
    have hupn := upwardSearch_none fs start hup h0
    simp only [find_build_axon, hupn, downwardSearch, h0,
      Bool.false_eq_true, if_false]
    cases hl : fs.listdir start with
    | none => rfl
    | some l1 => exact depth1Scan_none fs start l1 (h1 l1 hl) (h2 l1 hl)

/-- The concrete tree for the C2 witness: nothing upward from `/w`, a
permission-denied subdirectory `/w/denied` listed first, and the target
at `/w/a/b/build-axon` (a child of a depth-2 subdirectory). -/
def c2fs : FS :=
  mkFs [[], ["w"], ["w", "denied"], ["w", "a"], ["w", "a", "b"],
        ["w", "a", "b", "build-axon"]]
    [] [["w", "denied"]]
    [(["w"], ["denied", "a"]), (["w", "a"], ["b"])]
    [] true true true 0 0

/-- Witness for C2 at start path `/w`: the depth-2 hit is found even
though the sibling scanned before it cannot be listed. -/
theorem C2_downward_bounded_search_witness :
    (find_build_axon c2fs ["w"]).isSome :=
  (C2_downward_bounded_search c2fs ["w"]
      (fun k hk => by
        simp only [List.length_cons, List.length_nil] at hk
        have hk0 : k = 0 := by omega
        subst hk0
        decide)).2.2.1
    ["denied", "a"] (by decide) "a" (by decide) (by decide)
    ["b"] (by decide) "b" (by decide) (by decide) (by decide)

/-- When resolution succeeds, dry-run is off, the MCU build directory
exists, the directory change succeeds, and the build tool runs and
returns 0, the run is the `chdir`, the `make` invocation, and then
exactly what `check_and_copy_rom` decides. -/
theorem mainRun_build_ok (fs : FS) (args : Args) (ba : FsPath)
    (hfind : find_build_axon fs args.path = some ba)
    (hdry : args.dry_run = false)
    (hmcu : fs.isDir (ba ++ MCU_BUILD_SUFFIX) = true)
    (hcd : fs.chdirOk (ba ++ MCU_BUILD_SUFFIX) = true)
    (hmk : fs.makeAvailable = true)
    (hrc : fs.makeRc = 0) :
    mainRun fs args =
      ((check_and_copy_rom fs ba (ba ++ MCU_BUILD_SUFFIX) args.timeout
          args.force_copy args.dry_run).1,
        Effect.chdir (ba ++ MCU_BUILD_SUFFIX) :: Effect.runMake ::
          (check_and_copy_rom fs ba (ba ++ MCU_BUILD_SUFFIX) args.timeout
            args.force_copy args.dry_run).2) := by
  unfold mainRun run_make
  rw [hfind]
  simp [hdry, hmcu, hcd, hmk, hrc]

/-- A fresh-enough artifact with no force flag in non-dry mode: the gate
passes and the ROM is copied. -/
theorem check_and_copy_rom_fresh (fs : FS) (ba mcu bd : FsPath)
    (timeout mtime : Int)
    (hboot : find_boot_dir fs mcu = some bd)
    (hrom : fs.pathExists (bd ++ [ROM_NAME]) = true)
    (hmt : fs.getmtime (bd ++ [ROM_NAME]) = some mtime)
    (hage : fs.now - mtime ≤ timeout)
    (hmkd : fs.makedirsOk (ba ++ [LINUX_YP_PATH, BOOT_FIRMWARE_FOLDER_DST]) = true)
    (hcp : fs.copy2Ok (bd ++ [ROM_NAME])
      (ba ++ [LINUX_YP_PATH, BOOT_FIRMWARE_FOLDER_DST, ROM_NAME]) = true) :
    check_and_copy_rom fs ba mcu timeout false false =
      (PyOutcome.exit 0,
       [Effect.makedirs (ba ++ [LINUX_YP_PATH, BOOT_FIRMWARE_FOLDER_DST]),
        Effect.copy2 (bd ++ [ROM_NAME])
          (ba ++ [LINUX_YP_PATH, BOOT_FIRMWARE_FOLDER_DST, ROM_NAME])]) := by
  unfold check_and_copy_rom romStageTail
  rw [hboot]
  simp [hrom, hmt, not_lt.mpr hage, hmkd, hcp]

/-- A stale artifact with no force flag: exit 9 and nothing is done. -/
theorem check_and_copy_rom_stale (fs : FS) (ba mcu bd : FsPath)
    (timeout mtime : Int) (dry : Bool)
    (hboot : find_boot_dir fs mcu = some bd)
    (hrom : fs.pathExists (bd ++ [ROM_NAME]) = true)
    (hmt : fs.getmtime (bd ++ [ROM_NAME]) = some mtime)
    (hage : fs.now - mtime > timeout) :
    check_and_copy_rom fs ba mcu timeout false dry = (PyOutcome.exit 9, []) := by
  unfold check_and_copy_rom
  rw [hboot]
  simp [hrom, hmt, hage]

/-- With the force flag the freshness check is bypassed entirely and the
ROM is copied whatever its age. -/
theorem check_and_copy_rom_force (fs : FS) (ba mcu bd : FsPath)
    (timeout : Int)
    (hboot : find_boot_dir fs mcu = some bd)
    (hrom : fs.pathExists (bd ++ [ROM_NAME]) = true)
    (hmkd : fs.makedirsOk (ba ++ [LINUX_YP_PATH, BOOT_FIRMWARE_FOLDER_DST]) = true)
    (hcp : fs.copy2Ok (bd ++ [ROM_NAME])
      (ba ++ [LINUX_YP_PATH, BOOT_FIRMWARE_FOLDER_DST, ROM_NAME]) = true) :
    check_and_copy_rom fs ba mcu timeout true false =
      (PyOutcome.exit 0,
       [Effect.makedirs (ba ++ [LINUX_YP_PATH, BOOT_FIRMWARE_FOLDER_DST]),
        Effect.copy2 (bd ++ [ROM_NAME])
          (ba ++ [LINUX_YP_PATH, BOOT_FIRMWARE_FOLDER_DST, ROM_NAME])]) := by
  unfold check_and_copy_rom romStageTail
  rw [hboot]
  simp [hrom, hmkd, hcp]

/-- C3: in a run that reaches the freshness check (resolution, directory
change and build all succeeded, the boot directory and the ROM exist and
its mtime is readable) without `--force-copy`, the run exits 9 and copies
nothing exactly when `now - mtime > timeout`; an artifact aged exactly
`timeout` passes and is copied; with `--force-copy` the same artifact is
copied whatever its age. -/
theorem C3_freshness_gate (fs : FS) (args : Args) (ba bd : FsPath)
    (mtime : Int)
    (hfind : find_build_axon fs args.path = some ba)
    (hdry : args.dry_run = false)
    (hmcu : fs.isDir (ba ++ MCU_BUILD_SUFFIX) = true)
    (hcd : fs.chdirOk (ba ++ MCU_BUILD_SUFFIX) = true)
    (hmk : fs.makeAvailable = true)
    (hrc : fs.makeRc = 0)
    (hboot : find_boot_dir fs (ba ++ MCU_BUILD_SUFFIX) = some bd)
    (hrom : fs.pathExists (bd ++ [ROM_NAME]) = true)
    (hmt : fs.getmtime (bd ++ [ROM_NAME]) = some mtime)
    (hmkd : fs.makedirsOk (ba ++ [LINUX_YP_PATH, BOOT_FIRMWARE_FOLDER_DST]) = true)
    (hcp : fs.copy2Ok (bd ++ [ROM_NAME])
      (ba ++ [LINUX_YP_PATH, BOOT_FIRMWARE_FOLDER_DST, ROM_NAME]) = true) :
    (args.force_copy = false →
      (((mainRun fs args).1 = PyOutcome.exit 9 ∧
        ∀ s d, Effect.copy2 s d ∉ (mainRun fs args).2) ↔
        fs.now - mtime > args.timeout))
    ∧
    (args.force_copy = false → fs.now - mtime ≤ args.timeout →
      (mainRun fs args).1 = PyOutcome.exit 0 ∧
      Effect.copy2 (bd ++ [ROM_NAME])
        (ba ++ [LINUX_YP_PATH, BOOT_FIRMWARE_FOLDER_DST, ROM_NAME]) ∈
        (mainRun fs args).2)
    ∧
    (args.force_copy = true →
      (mainRun fs args).1 = PyOutcome.exit 0 ∧
      Effect.copy2 (bd ++ [ROM_NAME])
        (ba ++ [LINUX_YP_PATH, BOOT_FIRMWARE_FOLDER_DST, ROM_NAME]) ∈
        (mainRun fs args).2) := by
  have hm := mainRun_build_ok fs args ba hfind hdry hmcu hcd hmk hrc
  rw [hdry] at hm
  refine ⟨?_, ?_, ?_⟩
  · intro hforce
    rw [hforce] at hm
    by_cases hage : fs.now - mtime > args.timeout
    · rw [check_and_copy_rom_stale fs ba (ba ++ MCU_BUILD_SUFFIX) bd
        args.timeout mtime false hboot hrom hmt hage] at hm
      rw [hm]
      simp [hage]
    · rw [check_and_copy_rom_fresh fs ba (ba ++ MCU_BUILD_SUFFIX) bd
        args.timeout mtime hboot hrom hmt (not_lt.mp hage) hmkd hcp] at hm
      rw [hm]
      simp [hage]
  · intro hforce hage
    rw [hforce] at hm
    rw [check_and_copy_rom_fresh fs ba (ba ++ MCU_BUILD_SUFFIX) bd
      args.timeout mtime hboot hrom hmt hage hmkd hcp] at hm
    rw [hm]
    simp
  · intro hforce
    rw [hforce] at hm
    rw [check_and_copy_rom_force fs ba (ba ++ MCU_BUILD_SUFFIX) bd
      args.timeout hboot hrom hmkd hcp] at hm
    rw [hm]
    simp

/-- Concrete layout for the C3 witness: build root at `/proj/build-axon`,
everything in place, the ROM aged exactly the timeout. -/
def c3ba : FsPath := ["proj", "build-axon"]

/-- The computed MCU build directory of the C3 witness layout. -/
def c3mcu : FsPath := c3ba ++ MCU_BUILD_SUFFIX

/-- The discovered boot-firmware directory of the C3 witness layout. -/
def c3boot : FsPath := c3mcu ++ ["boot-firmware-tcn100x"]

/-- The C3 witness filesystem: the ROM was modified at time 100 and the
clock reads 160, so its age is exactly the default timeout of 60. -/
def c3fs : FS :=
  mkFs [[], ["proj"], c3ba, c3mcu, c3boot]
    [(c3boot ++ [ROM_NAME], 100)] [] [] [] true true true 0 160

/-- The C3 witness command line: default timeout, no flags. -/
def c3args : Args := ⟨["proj"], false, 60, false⟩

/-- Witness for C3: an artifact aged exactly `timeout` seconds passes the
gate and is copied. -/
theorem C3_freshness_gate_witness :
    (mainRun c3fs c3args).1 = PyOutcome.exit 0 ∧
    Effect.copy2 (c3boot ++ [ROM_NAME])
      (c3ba ++ [LINUX_YP_PATH, BOOT_FIRMWARE_FOLDER_DST, ROM_NAME]) ∈
      (mainRun c3fs c3args).2 :=
  (C3_freshness_gate c3fs c3args c3ba c3boot 100
    (by decide) rfl (by decide) rfl rfl rfl
    (by decide) (by decide) (by decide) (by decide) (by decide)).2.1
    rfl (by decide)

/-- C4: in a run that reaches the build step, a non-zero termination
status of the external build tool is propagated verbatim as the process
exit code and the pipeline short-circuits (the trace ends after the
`make` invocation: no gating, no staging); a build tool missing from the
execution path yields the specific code 127 with the tool never invoked,
a failure shape distinct from a propagated compile failure. -/
theorem C4_build_propagation (fs : FS) (args : Args) (ba : FsPath)
    (hfind : find_build_axon fs args.path = some ba)
    (hdry : args.dry_run = false)
    (hmcu : fs.isDir (ba ++ MCU_BUILD_SUFFIX) = true)
    (hcd : fs.chdirOk (ba ++ MCU_BUILD_SUFFIX) = true) :
    (fs.makeAvailable = true → fs.makeRc ≠ 0 →
      mainRun fs args =
        (PyOutcome.exit fs.makeRc,
         [Effect.chdir (ba ++ MCU_BUILD_SUFFIX), Effect.runMake]))
    ∧
    (fs.makeAvailable = false →
      mainRun fs args =
        (PyOutcome.exit 127, [Effect.chdir (ba ++ MCU_BUILD_SUFFIX)])) := by
  constructor
  · intro hmk hrc
    unfold mainRun run_make
    rw [hfind]
    simp [hdry, hmcu, hcd, hmk, hrc]
  · intro hmk
    unfold mainRun run_make
    rw [hfind]
    simp [hdry, hmcu, hcd, hmk]

/-- Layout for the C4 witness: resolution and directory change succeed
and the build tool is available but fails with status 2. -/
def c4fs : FS :=
  mkFs [[], ["proj"], c3ba, c3mcu] [] [] [] [] true true true 2 0

/-- Witness for C4: the build tool's status 2 becomes the process exit
code and nothing past the build step happens. -/
theorem C4_build_propagation_witness :
    mainRun c4fs c3args =
      (PyOutcome.exit c4fs.makeRc,
       [Effect.chdir (c3ba ++ MCU_BUILD_SUFFIX), Effect.runMake]) :=
  (C4_build_propagation c4fs c3args c3ba
    (by decide) rfl (by decide) rfl).1 rfl (by decide)

/-- C5: with `--dry-run`, when resolution succeeds the run prints the
three resolved paths, performs no other effect (no file created, modified
or deleted, no build tool invoked) and exits 0, whether or not the MCU
build directory exists; when resolution fails the run still exits 4 with
no effect at all. -/
theorem C5_dry_run (fs : FS) (args : Args)
    (hdry : args.dry_run = true) :
    (∀ ba, find_build_axon fs args.path = some ba →
      mainRun fs args =
        (PyOutcome.exit 0,
         [Effect.printDryRun ba (ba ++ MCU_BUILD_SUFFIX)
            (ba ++ [LINUX_YP_PATH, BOOT_FIRMWARE_FOLDER_DST])]))
    ∧
    (find_build_axon fs args.path = none →
      mainRun fs args = (PyOutcome.exit 4, [])) := by
  constructor
  · intro ba hfind
    unfold mainRun
    rw [hfind]
    simp [hdry]
  · intro hfind
    unfold mainRun
    rw [hfind]

/-- Layout for the C5 witness: the build root resolves but the computed
MCU build directory does not exist at all. -/
def c5fs : FS :=
  mkFs [[], ["proj"], c3ba] [] [] [] [] true true true 0 0

/-- The C5 witness command line: `--dry-run` set. -/
def c5args : Args := ⟨["proj"], true, 60, false⟩

/-- Witness for C5: dry run with a missing MCU build directory still
exits 0 and only prints the three resolved paths. -/
theorem C5_dry_run_witness :
    mainRun c5fs c5args =
      (PyOutcome.exit 0,
       [Effect.printDryRun c3ba (c3ba ++ MCU_BUILD_SUFFIX)
          (c3ba ++ [LINUX_YP_PATH, BOOT_FIRMWARE_FOLDER_DST])]) :=
  (C5_dry_run c5fs c5args rfl).1 c3ba (by decide)

/-- Layout refuting C6 as stated: the whole gate passes, dry-run is set,
and the destination directory does not exist yet. -/
def c6fs : FS :=
  mkFs [[], ["proj"], c3ba, c3mcu, c3boot]
    [(c3boot ++ [ROM_NAME], 0)] [] [] [] true true true 0 0

/-- Counterexample to C6 as stated: a call to `check_and_copy_rom` with
`dry_run=True` that passes the gate checks still records a `makedirs` of
the (absent) destination directory, because `os.makedirs` runs before the
`if dry_run:` branch — a filesystem mutation in dry-run mode. -/
theorem C6_counterexample :
    c6fs.isDir (c3ba ++ [LINUX_YP_PATH, BOOT_FIRMWARE_FOLDER_DST]) = false ∧
    Effect.makedirs (c3ba ++ [LINUX_YP_PATH, BOOT_FIRMWARE_FOLDER_DST]) ∈
      (check_and_copy_rom c6fs c3ba c3mcu 60 false true).2 := by
  decide

/-- C6 amended: a call to the staging routine with `dry_run=True` that
passes the gate checks reports the computed source and destination paths
and performs no copy, but it does first invoke destination-directory
creation (`os.makedirs` with `exist_ok=True`), creating the destination
tree when it is absent. -/
theorem C6_amended_dry_run_stage (fs : FS) (ba mcu bd : FsPath)
    (timeout mtime : Int) (force_copy : Bool)
    (hboot : find_boot_dir fs mcu = some bd)
    (hrom : fs.pathExists (bd ++ [ROM_NAME]) = true)
    (hfresh : force_copy = true ∨
      (fs.getmtime (bd ++ [ROM_NAME]) = some mtime ∧ fs.now - mtime ≤ timeout))
    (hmkd : fs.makedirsOk (ba ++ [LINUX_YP_PATH, BOOT_FIRMWARE_FOLDER_DST]) = true) :
    check_and_copy_rom fs ba mcu timeout force_copy true =
      (PyOutcome.exit 0,
       [Effect.makedirs (ba ++ [LINUX_YP_PATH, BOOT_FIRMWARE_FOLDER_DST]),
        Effect.printWouldCopy (bd ++ [ROM_NAME])
          (ba ++ [LINUX_YP_PATH, BOOT_FIRMWARE_FOLDER_DST, ROM_NAME])]) := by
  unfold check_and_copy_rom romStageTail
  rw [hboot]
  cases force_copy with
  | true => simp [hrom, hmkd]
  | false =>
      rcases hfresh with hf | ⟨hmt, hage⟩
      · simp at hf
      · simp [hrom, hmt, not_lt.mpr hage, hmkd]

/-- Witness for the amended C6 on the concrete layout: exit 0, the paths
are reported, no copy happens, and the `makedirs` call is performed. -/
theorem C6_amended_dry_run_stage_witness :
    check_and_copy_rom c6fs c3ba c3mcu 60 false true =
      (PyOutcome.exit 0,
       [Effect.makedirs (c3ba ++ [LINUX_YP_PATH, BOOT_FIRMWARE_FOLDER_DST]),
        Effect.printWouldCopy (c3boot ++ [ROM_NAME])
          (c3ba ++ [LINUX_YP_PATH, BOOT_FIRMWARE_FOLDER_DST, ROM_NAME])]) :=
  C6_amended_dry_run_stage c6fs c3ba c3mcu c3boot 60 0 false
    (by decide) (by decide) (Or.inr ⟨by decide, by decide⟩) (by decide)

/-- C7: the artifact gate tests exactly the two boot-firmware directory
name variants in fixed priority order, the first one found is
authoritative (when both exist the dashed variant is always chosen);
with neither present the run exits 7, and with the fixed ROM filename
absent from the chosen directory the run exits 8. -/
theorem C7_boot_dir_priority (fs : FS) (args : Args) (ba : FsPath)
    (hfind : find_build_axon fs args.path = some ba)
    (hdry : args.dry_run = false)
    (hmcu : fs.isDir (ba ++ MCU_BUILD_SUFFIX) = true)
    (hcd : fs.chdirOk (ba ++ MCU_BUILD_SUFFIX) = true)
    (hmk : fs.makeAvailable = true)
    (hrc : fs.makeRc = 0) :
    (BOOT_DIR_CANDIDATES = ["boot-firmware-tcn100x", "boot-firmware_tcn100x"])
    ∧
    (fs.isDir (ba ++ MCU_BUILD_SUFFIX ++ ["boot-firmware-tcn100x"]) = true →
      find_boot_dir fs (ba ++ MCU_BUILD_SUFFIX) =
        some (ba ++ MCU_BUILD_SUFFIX ++ ["boot-firmware-tcn100x"]))
    ∧
    (fs.isDir (ba ++ MCU_BUILD_SUFFIX ++ ["boot-firmware-tcn100x"]) = false →
      fs.isDir (ba ++ MCU_BUILD_SUFFIX ++ ["boot-firmware_tcn100x"]) = true →
      find_boot_dir fs (ba ++ MCU_BUILD_SUFFIX) =
        some (ba ++ MCU_BUILD_SUFFIX ++ ["boot-firmware_tcn100x"]))
    ∧
    (fs.isDir (ba ++ MCU_BUILD_SUFFIX ++ ["boot-firmware-tcn100x"]) = false →
      fs.isDir (ba ++ MCU_BUILD_SUFFIX ++ ["boot-firmware_tcn100x"]) = false →
      (mainRun fs args).1 = PyOutcome.exit 7)
    ∧
    (∀ bd, find_boot_dir fs (ba ++ MCU_BUILD_SUFFIX) = some bd →
      fs.pathExists (bd ++ [ROM_NAME]) = false →
      (mainRun fs args).1 = PyOutcome.exit 8) := by
  have hm := mainRun_build_ok fs args ba hfind hdry hmcu hcd hmk hrc
  refine ⟨rfl, ?_, ?_, ?_, ?_⟩
  · intro h1
    rw [List.append_assoc] at h1
    unfold find_boot_dir findBootDirAux BOOT_DIR_CANDIDATES
    simp [h1]
  · intro h1 h2
    rw [List.append_assoc] at h1 h2
    unfold find_boot_dir findBootDirAux BOOT_DIR_CANDIDATES
    simp [findBootDirAux, h1, h2]
  · intro h1 h2
    rw [List.append_assoc] at h1 h2
    have hb : find_boot_dir fs (ba ++ MCU_BUILD_SUFFIX) = none := by
      unfold find_boot_dir findBootDirAux BOOT_DIR_CANDIDATES
      simp [findBootDirAux, h1, h2]
    have hc : check_and_copy_rom fs ba (ba ++ MCU_BUILD_SUFFIX) args.timeout
        args.force_copy args.dry_run = (PyOutcome.exit 7, []) := by
      unfold check_and_copy_rom
      rw [hb]
    rw [hm, hc]
  · intro bd hbd hrom
    have hc : check_and_copy_rom fs ba (ba ++ MCU_BUILD_SUFFIX) args.timeout
        args.force_copy args.dry_run = (PyOutcome.exit 8, []) := by
      unfold check_and_copy_rom
      rw [hbd]
      simp [hrom]
    rw [hm, hc]

/-- Layout for the C7 witness: both boot-firmware directory name variants
exist under the MCU build directory. -/
def c7fs : FS :=
  mkFs [[], ["proj"], c3ba, c3mcu,
        c3mcu ++ ["boot-firmware-tcn100x"], c3mcu ++ ["boot-firmware_tcn100x"]]
    [] [] [] [] true true true 0 0

/-- Witness for C7: with both variants present, the first in priority
order (the dashed one) is chosen deterministically. -/
theorem C7_boot_dir_priority_witness :
    find_boot_dir c7fs (c3ba ++ MCU_BUILD_SUFFIX) =
      some (c3ba ++ MCU_BUILD_SUFFIX ++ ["boot-firmware-tcn100x"]) :=
  (C7_boot_dir_priority c7fs c3args c3ba
    (by decide) rfl (by decide) rfl rfl rfl).2.1 (by decide)

/-- The failure class a run lands in, mirroring the branch structure of
`mainRun` (used to state the amended exit-code taxonomy). -/
inductive FailClass where
  | ok
  | resolutionFailed
  | mcuMissing
  | chdirFailed
  | buildFailed (rc : Int)
  | bootDirMissing
  | romMissing
  | stale
  | copyFailed
  | crashed (r : CrashReason)
deriving DecidableEq

/-- The failure class of the staging tail. -/
def stageClass (fs : FS) (ba rom : FsPath) (dry : Bool) : FailClass :=
  let dest_dir := ba ++ [LINUX_YP_PATH, BOOT_FIRMWARE_FOLDER_DST]
  if fs.makedirsOk dest_dir then
    if dry then FailClass.ok
    else if fs.copy2Ok rom (dest_dir ++ [ROM_NAME]) then FailClass.ok
    else FailClass.copyFailed
  else FailClass.crashed (CrashReason.makedirsFailed dest_dir)

/-- The failure class of the artifact gate and staging. -/
def gateClass (fs : FS) (ba mcu : FsPath) (timeout : Int)
    (force_copy dry : Bool) : FailClass :=
  match find_boot_dir fs mcu with
  | none => FailClass.bootDirMissing
  | some boot_dir =>
      let rom := boot_dir ++ [ROM_NAME]
      if fs.pathExists rom then
        if force_copy then stageClass fs ba rom dry
        else
          match fs.getmtime rom with
          | none => FailClass.crashed (CrashReason.getmtimeFailed rom)
          | some mtime =>
              if fs.now - mtime > timeout then FailClass.stale
              else stageClass fs ba rom dry
      else FailClass.romMissing

/-- The failure class of a whole run. -/
def classify (fs : FS) (args : Args) : FailClass :=
  match find_build_axon fs args.path with
  | none => FailClass.resolutionFailed
  | some ba =>
      let mcu := ba ++ MCU_BUILD_SUFFIX
      if args.dry_run then FailClass.ok
      else if !fs.isDir mcu then FailClass.mcuMissing
      else if !fs.chdirOk mcu then FailClass.chdirFailed
      else if (run_make fs).1 ≠ 0 then FailClass.buildFailed (run_make fs).1
      else gateClass fs ba mcu args.timeout args.force_copy args.dry_run

/-- The exit-code taxonomy as a function of the failure class. -/
def classCode : FailClass → PyOutcome
  | .ok => PyOutcome.exit 0
  | .resolutionFailed => PyOutcome.exit 4
  | .mcuMissing => PyOutcome.exit 5
  | .chdirFailed => PyOutcome.exit 6
  | .buildFailed rc => PyOutcome.exit rc
  | .bootDirMissing => PyOutcome.exit 7
  | .romMissing => PyOutcome.exit 8
  | .stale => PyOutcome.exit 9
  | .copyFailed => PyOutcome.exit 10
  | .crashed r => PyOutcome.uncaught r

/-- Whether the class is a propagated build-tool failure. -/
def FailClass.isBuildFailed : FailClass → Bool
  | .buildFailed _ => true
  | _ => false

/-- The staging tail lands in the class that `stageClass` computes. -/
theorem romStageTail_fst (fs : FS) (ba rom : FsPath) (dry : Bool) :
    (romStageTail fs ba rom dry).1 = classCode (stageClass fs ba rom dry) := by
  unfold romStageTail stageClass
  by_cases h1 : fs.makedirsOk (ba ++ [LINUX_YP_PATH, BOOT_FIRMWARE_FOLDER_DST])
  · by_cases h2 : dry
    · simp [h1, h2, classCode]
    · by_cases h3 : fs.copy2Ok rom
        (ba ++ [LINUX_YP_PATH, BOOT_FIRMWARE_FOLDER_DST, ROM_NAME])
      · simp [h1, h2, h3, classCode]
      · simp [h1, h2, h3, classCode]
  · simp [h1, classCode]

/-- The gate-and-staging phase lands in the class that `gateClass`
computes. -/
theorem check_and_copy_rom_fst (fs : FS) (ba mcu : FsPath) (timeout : Int)
    (force_copy dry : Bool) :
    (check_and_copy_rom fs ba mcu timeout force_copy dry).1 =
      classCode (gateClass fs ba mcu timeout force_copy dry) := by
  unfold check_and_copy_rom gateClass
  cases hb : find_boot_dir fs mcu with
  | none => rfl
  | some bd =>
      by_cases hrom : fs.pathExists (bd ++ [ROM_NAME])
      · by_cases hf : force_copy
        · simp [hrom, hf, romStageTail_fst]
        · cases hmt : fs.getmtime (bd ++ [ROM_NAME]) with
          | none => simp [hrom, hf, hmt, classCode]
          | some m =>
              by_cases hage : fs.now - m > timeout
              · simp [hrom, hf, hmt, hage, classCode]
              · simp [hrom, hf, hmt, hage, romStageTail_fst]
      · simp [hrom, classCode]

/-- A whole run's outcome is the code of the class `classify` computes. -/
theorem mainRun_fst (fs : FS) (args : Args) :
    (mainRun fs args).1 = classCode (classify fs args) := by
  unfold mainRun classify
  cases hf : find_build_axon fs args.path with
  | none => rfl
  | some ba =>
      by_cases hdry : args.dry_run
      · simp [hdry, classCode]
      · by_cases hmcu : fs.isDir (ba ++ MCU_BUILD_SUFFIX)
        · by_cases hcd : fs.chdirOk (ba ++ MCU_BUILD_SUFFIX)
          · by_cases hrc : (run_make fs).1 ≠ 0
            · simp [hdry, hmcu, hcd, hrc, classCode]
            · simp [hdry, hmcu, hcd, hrc, check_and_copy_rom_fst]
          · simp [hdry, hmcu, hcd, classCode]
        · simp [hdry, hmcu, classCode]

/-- Layout refuting C8 as stated: the build tool is reached and exits
with status 9, the very value the taxonomy assigns to a stale artifact. -/
def c8fs : FS :=
  mkFs [[], ["proj"], c3ba, c3mcu] [] [] [] [] true true true 9 0

/-- Counterexample to C8 as stated: a propagated build-tool status of 9
produces process exit code 9, coinciding with the stale-artifact gate
code, even though no gate check ran (the trace stops after `make`). -/
theorem C8_counterexample :
    c8fs.makeRc = 9 ∧
    mainRun c8fs c3args =
      (PyOutcome.exit 9,
       [Effect.chdir (c3ba ++ MCU_BUILD_SUFFIX), Effect.runMake]) ∧
    classify c8fs c3args = FailClass.buildFailed 9 ∧
    classCode FailClass.stale = PyOutcome.exit 9 := by
  decide

/-- C8 amended: every run's exit code is the code of its failure class,
and on the non-propagated classes (everything except a verbatim build
status) the code determines the class uniquely — but a propagated
non-zero build status can coincide numerically with any taxonomy code. -/
theorem C8_amended_taxonomy (fs : FS) (args : Args) :
    (mainRun fs args).1 = classCode (classify fs args) ∧
    (∀ f1 f2 : FailClass, f1.isBuildFailed = false → f2.isBuildFailed = false →
      classCode f1 = classCode f2 → f1 = f2) := by
  refine ⟨mainRun_fst fs args, ?_⟩
  intro f1 f2 h1 h2 hc
  cases f1 <;> cases f2 <;> simp_all [classCode, FailClass.isBuildFailed]

/-- Witness for the amended C8 on the concrete stale-coincidence layout:
the run's code is its class's code, and equal non-propagated codes mean
equal classes. -/
theorem C8_amended_taxonomy_witness :
    (mainRun c8fs c3args).1 = classCode (classify c8fs c3args) ∧
    FailClass.stale = FailClass.stale :=
  ⟨(C8_amended_taxonomy c8fs c3args).1,
   (C8_amended_taxonomy c8fs c3args).2 FailClass.stale FailClass.stale
     rfl rfl rfl⟩

/-- Layout refuting C9 via the staging step: everything passes up to
staging, and `os.makedirs` on the absent destination directory fails. -/
def c9fs : FS :=
  mkFs [[], ["proj"], c3ba, c3mcu, c3boot]
    [(c3boot ++ [ROM_NAME], 0)] [] []
    [c3ba ++ [LINUX_YP_PATH, BOOT_FIRMWARE_FOLDER_DST]]
    true true true 0 0

/-- Layout refuting C9 via the freshness step: the existence check on the
ROM passes but reading its modification time raises. -/
def c9gfs : FS where
  isDir p := [[], ["proj"], c3ba, c3mcu, c3boot].contains p
  pathExists _ := true
  getmtime _ := none
  listdir _ := some []
  makedirsOk _ := true
  copy2Ok _ _ := true
  chdirOk _ := true
  makeAvailable := true
  makeRc := 0
  now := 0

/-- Counterexample to C9 as stated: a destination-directory creation
failure and an artifact-metadata read failure both escape as uncaught
exceptions — the run crashes without passing through the exit-code
taxonomy. -/
theorem C9_counterexample :
    (mainRun c9fs c3args).1 =
      PyOutcome.uncaught (CrashReason.makedirsFailed
        (c3ba ++ [LINUX_YP_PATH, BOOT_FIRMWARE_FOLDER_DST])) ∧
    (mainRun c9gfs c3args).1 =
      PyOutcome.uncaught (CrashReason.getmtimeFailed
        (c3boot ++ [ROM_NAME])) := by
  decide

/-- With `os.makedirs` never failing, the staging tail always exits with
a code. -/
theorem romStageTail_exits (fs : FS) (ba rom : FsPath) (dry : Bool)
    (hmkd : ∀ p, fs.makedirsOk p = true) :
    ∃ c, (romStageTail fs ba rom dry).1 = PyOutcome.exit c := by
  unfold romStageTail
  by_cases hdry : dry
  · exact ⟨0, by simp [hmkd, hdry]⟩
  · by_cases hcp : fs.copy2Ok rom
      (ba ++ [LINUX_YP_PATH, BOOT_FIRMWARE_FOLDER_DST, ROM_NAME])
    · exact ⟨0, by simp [hmkd, hdry, hcp]⟩
    · exact ⟨10, by simp [hmkd, hdry, hcp]⟩

/-- With `os.makedirs` and `os.path.getmtime` never failing, the gate and
staging phase always exits with a code. -/
theorem check_and_copy_rom_exits (fs : FS) (ba mcu : FsPath)
    (timeout : Int) (force_copy dry : Bool)
    (hmkd : ∀ p, fs.makedirsOk p = true)
    (hmt : ∀ p, fs.getmtime p ≠ none) :
    ∃ c, (check_and_copy_rom fs ba mcu timeout force_copy dry).1 =
      PyOutcome.exit c := by
  unfold check_and_copy_rom
  cases hb : find_boot_dir fs mcu with
  | none => exact ⟨7, rfl⟩
  | some bd =>
      by_cases hrom : fs.pathExists (bd ++ [ROM_NAME])
      · by_cases hf : force_copy
        · obtain ⟨c, hc⟩ := romStageTail_exits fs ba (bd ++ [ROM_NAME]) dry hmkd
          exact ⟨c, by simp [hrom, hf, hc]⟩
        · cases hmt2 : fs.getmtime (bd ++ [ROM_NAME]) with
          | none => exact absurd hmt2 (hmt _)
          | some m =>
              by_cases hage : fs.now - m > timeout
              · exact ⟨9, by simp [hrom, hf, hmt2, hage]⟩
              · obtain ⟨c, hc⟩ :=
                  romStageTail_exits fs ba (bd ++ [ROM_NAME]) dry hmkd
                exact ⟨c, by simp [hrom, hf, hmt2, hage, hc]⟩
      · exact ⟨8, by simp [hrom]⟩

/-- C9 amended: for every run on an environment where
destination-directory creation and artifact-metadata reads do not fail,
the process terminates through the exit-code taxonomy (no other modelled
error condition can crash the run); destination-directory creation
failure and metadata read failure themselves escape as uncaught
exceptions. -/
theorem C9_amended_taxonomy_totality (fs : FS) (args : Args)
    (hmkd : ∀ p, fs.makedirsOk p = true)
    (hmt : ∀ p, fs.getmtime p ≠ none) :
    ∃ c, (mainRun fs args).1 = PyOutcome.exit c := by
  unfold mainRun
  cases hf : find_build_axon fs args.path with
  | none => exact ⟨4, rfl⟩
  | some ba =>
      by_cases hdry : args.dry_run
      · exact ⟨0, by simp [hdry]⟩
      · by_cases hmcu : fs.isDir (ba ++ MCU_BUILD_SUFFIX)
        · by_cases hcd : fs.chdirOk (ba ++ MCU_BUILD_SUFFIX)
          · by_cases hrc : (run_make fs).1 ≠ 0
            · exact ⟨(run_make fs).1, by simp [hdry, hmcu, hcd, hrc]⟩
            · obtain ⟨c, hc⟩ := check_and_copy_rom_exits fs ba
                (ba ++ MCU_BUILD_SUFFIX) args.timeout args.force_copy
                false hmkd hmt
              exact ⟨c, by simp [hdry, hmcu, hcd, hrc, hc]⟩
          · exact ⟨6, by simp [hdry, hmcu, hcd]⟩
        · exact ⟨5, by simp [hdry, hmcu]⟩

/-- An environment for the amended C9 witness in which neither
destination-directory creation nor metadata reads can fail. -/
def c9wfs : FS where
  isDir p := [[], ["proj"], c3ba, c3mcu, c3boot].contains p
  pathExists _ := true
  getmtime _ := some 0
  listdir _ := some []
  makedirsOk _ := true
  copy2Ok _ _ := true
  chdirOk _ := true
  makeAvailable := true
  makeRc := 0
  now := 0

/-- Witness for the amended C9: on the benign environment the run
terminates through the taxonomy. -/
theorem C9_amended_taxonomy_totality_witness :
    ∃ c, (mainRun c9wfs c3args).1 = PyOutcome.exit c :=
  C9_amended_taxonomy_totality c9wfs c3args (fun _ => rfl)
    (fun _ h => Option.noConfusion h)
